import Mathlib

/-!
Verification of the skrl training-orchestration core: the `Trainer` scope
partitioner (`skrl/trainers/torch/base.py`), the DDPG agent's exploration,
target-value and post-interaction logic (`skrl/agents/torch/ddpg/ddpg.py`),
the SARSA tabular update (`skrl/agents/torch/sarsa/sarsa.py`), and the
role-keyed lookup fallback of `MultivariateGaussianMixin`
(`skrl/models/torch/multivariate_gaussian.py`).

Python integers are modelled as `Nat`, tensors of scalars as `List ℚ` (or
functions into `ℚ` for the Q-table), booleans as `Bool`, and exceptions as
`Except String`.
-/

namespace Skrl

/-! ### Trainer scope partitioner (`skrl/trainers/torch/base.py`) -/

/-- Set the last element of a list to `f` of itself (Python `xs[-1] = f(xs[-1])`);
the empty list is returned unchanged. -/
def setLast (xs : List Nat) (f : Nat → Nat) : List Nat :=
  match xs with
  | [] => []
  | [x] => [f x]
  | x :: rest => x :: setLast rest f

/-- `generate_equally_spaced_scopes(num_envs, num_agents)`:
`scopes = [int(num_envs / num_agents)] * num_agents`; if `sum(scopes)` is
nonzero the remainder `num_envs - sum(scopes)` is added to the last entry,
otherwise a `ValueError` is raised. -/
def generate_equally_spaced_scopes (num_envs num_agents : Nat) : Except String (List Nat) :=
  let scopes := List.replicate num_agents (num_envs / num_agents)
  if scopes.sum ≠ 0 then
    .ok (setLast scopes (fun last => last + (num_envs - scopes.sum)))
  else
    .error "The number of agents is greater than the number of environments"

/-- The size-to-range conversion loop of `Trainer._setup_agents`
(`index += scope; scope := (index - scope, index)`), started at `index`. -/
def scopesToRangesFrom (index : Nat) : List Nat → List (Nat × Nat)
  | [] => []
  | s :: rest => (index, index + s) :: scopesToRangesFrom (index + s) rest

/-- Cumulative-sum conversion of scope sizes to half-open index ranges,
as performed at the end of `Trainer._setup_agents` (starting `index = 0`). -/
def scopesToRanges (sizes : List Nat) : List (Nat × Nat) :=
  scopesToRangesFrom 0 sizes

/-- The value stored in `Trainer.agents_scope` after `_setup_agents`: either a
list of sizes (single-agent branches, which never convert) or a list of
half-open ranges (multi-agent branch). -/
inductive ScopeState where
  | sizes (l : List Nat)
  | ranges (l : List (Nat × Nat))
deriving DecidableEq, Repr

/-- The `agents` constructor argument, as far as `_setup_agents` inspects it:
a bare agent (not a tuple or list) or a list of `n` agents. -/
inductive AgentsArg where
  | bare
  | list (n : Nat)
deriving DecidableEq, Repr

/-- `Trainer._setup_agents`: validates `agents` against `agents_scope` and
returns the final `agents_scope` value (or the raised `ValueError`).
`num_envs` is `self.env.num_envs` and `scope` the `agents_scope` argument. -/
def setup_agents (num_envs : Nat) (agents : AgentsArg) (scope : List Nat) :
    Except String ScopeState :=
  match agents with
  | .list n =>
    if n = 1 then
      .ok (.sizes [1])
    else if 1 < n then
      if scope.length = 0 then
        let scope := List.replicate n (num_envs / n)
        if scope.sum ≠ 0 then
          .ok (.ranges (scopesToRanges (setLast scope (fun last => last + (num_envs - scope.sum)))))
        else
          .error "The number of agents is greater than the number of parallelizable environments"
      else if scope.length ≠ n then
        .error "The number of agents does not match the number of scopes"
      else if scope.sum ≠ num_envs then
        .error "The scopes do not cover the number of parallelizable environments"
      else
        .ok (.ranges (scopesToRanges scope))
    else
      .error "A list of agents is expected"
  | .bare => .ok (.sizes scope)

/-- Whether an `Except` value is a raised error. -/
def isError {α : Type} : Except String α → Bool
  | .error _ => true
  | .ok _ => false

/-! ### DDPG update engine (`skrl/agents/torch/ddpg/ddpg.py`) -/

/-- Elementwise target-value computation of `DDPG._update`:
`target_values = sampled_rewards + discount_factor * sampled_dones.logical_not()
* target_q_values`; a `done` flag enters the product as `0` (its logical
negation) and a non-`done` flag as `1`. -/
def ddpg_target_values (discount_factor : ℚ) :
    List ℚ → List Bool → List ℚ → List ℚ
  | r :: rs, d :: ds, q :: qs =>
      (r + discount_factor * (if d then 0 else 1) * q) ::
        ddpg_target_values discount_factor rs ds qs
  | _, _, _ => []

/-- Observable actions of an agent's `post_interaction`/`_update` calls:
optimizer gradient steps, target-network soft-updates
(`update_parameters`), the SARSA Q-table write, and the base-class
tracking-data/checkpoint flush. -/
inductive AgentEvent where
  | gradientStep
  | softUpdate
  | tableUpdate
  | writeTrackingData
deriving DecidableEq, Repr

/-- Event trace of one call to `DDPG._update`: per gradient step, a critic
optimizer step, a policy optimizer step, then the `target_policy` and
`target_critic` soft-updates. -/
def ddpg_update_events (gradient_steps : Nat) : List AgentEvent :=
  (List.replicate gradient_steps
    [AgentEvent.gradientStep, AgentEvent.gradientStep,
     AgentEvent.softUpdate, AgentEvent.softUpdate]).flatten

/-- Event trace of `DDPG.post_interaction`: `_update` runs iff
`timestep >= learning_starts`, then `super().post_interaction` (tracking-data
write and checkpointing; its body lives outside this repository and is
modelled as the single `writeTrackingData` event) runs unconditionally. -/
def ddpg_post_interaction (learning_starts timestep gradient_steps : Nat) :
    List AgentEvent :=
  (if learning_starts ≤ timestep then ddpg_update_events gradient_steps else []) ++
    [AgentEvent.writeTrackingData]

/-- Event trace of `SARSA.post_interaction`: the Q-table update runs iff
`timestep >= learning_starts`, then `super().post_interaction` runs
unconditionally. -/
def sarsa_post_interaction (learning_starts timestep : Nat) : List AgentEvent :=
  (if learning_starts ≤ timestep then [AgentEvent.tableUpdate] else []) ++
    [AgentEvent.writeTrackingData]

/-- Scalar `torch.clamp(x, min=lo, max=hi)`. -/
def rclamp (x lo hi : ℚ) : ℚ := min (max x lo) hi

/-- The linear decay formula of `DDPG.act`:
`scale = (1 - timestep / exploration_timesteps) * (initial_scale -
final_scale) + final_scale`. -/
def ddpg_noise_scale (timestep decay : Nat) (initial_scale final_scale : ℚ) : ℚ :=
  (1 - (timestep : ℚ) / (decay : ℚ)) * (initial_scale - final_scale) + final_scale

/-- Result of the exploration-noise section of `DDPG.act` for one action
component: the returned action value, the scale applied to the sampled noise
(`none` when the noise-adding branch was skipped), and the three tracked
noise metrics (max, min, mean — equal for the single modelled component). -/
structure ExplorationOutcome where
  action : ℚ
  appliedScale : Option ℚ
  noiseMetrics : Option (ℚ × ℚ × ℚ)
deriving DecidableEq, Repr

/-- Outcome of `DDPG.act`: either the early random-action return
(`timestep < random_timesteps`) or the policy action with the
exploration-noise outcome. -/
inductive DDPGAct where
  | randomAction
  | policyAction (o : ExplorationOutcome)
deriving DecidableEq, Repr

/-- `DDPG.act` with an exploration noise configured, for one action
component: `action` is the policy-computed action, `noise` the raw sample
drawn from the noise source, `lo`/`hi` the action-space clip bounds.
The lazy default `self._exploration_timesteps = timesteps` (when the
configured value is `None`) is the `Option.getD`. -/
def ddpg_act (timestep timesteps random_timesteps : Nat)
    (exploration_timesteps : Option Nat) (initial_scale final_scale : ℚ)
    (action noise lo hi : ℚ) : DDPGAct :=
  if timestep < random_timesteps then
    .randomAction
  else
    let decay := exploration_timesteps.getD timesteps
    if timestep ≤ decay then
      let scale := ddpg_noise_scale timestep decay initial_scale final_scale
      let scaled_noise := noise * scale
      .policyAction ⟨rclamp (action + scaled_noise) lo hi, some scale,
        some (scaled_noise, scaled_noise, scaled_noise)⟩
    else
      .policyAction ⟨action, none, some (0, 0, 0)⟩

/-! ### SARSA tabular update (`skrl/agents/torch/sarsa/sarsa.py`) -/

/-- `SARSA._update`: the Q-table is a function of (environment id, state,
action); `states`, `actions`, `rewards`, `next_states`, `dones` are the
`_current_*` fields recorded by the preceding `record_transition`, indexed by
environment id `0 .. numEnvs - 1` (`env_ids = torch.arange(...)`), and
`policy` is the action `self.policy.act` returns for a next state. The
advanced-indexed `+=` updates exactly the entries `(e, states e, actions e)`
(all distinct, since the environment ids are), reading the old table on the
right-hand side. -/
def sarsa_update (numEnvs : Nat) (learning_rate discount_factor : ℚ)
    (q : Nat → Nat → Nat → ℚ) (states actions : Nat → Nat) (rewards : Nat → ℚ)
    (next_states : Nat → Nat) (dones : Nat → Bool) (policy : Nat → Nat) :
    Nat → Nat → Nat → ℚ :=
  fun e s a =>
    if e < numEnvs ∧ s = states e ∧ a = actions e then
      q e s a + learning_rate *
        (rewards e + discount_factor * (if dones e then 0 else 1) *
          q e (next_states e) (policy (next_states e)) - q e s a)
    else
      q e s a

/-! ### Trainer loops (`Trainer.single_agent_train` / `single_agent_eval`) -/

/-- One lifecycle step of the single-agent loops, as an ordered event list.
`recordTransition`/`postInteraction` carry whether the call dispatches to the
base class (`super(type(self.agents), self.agents)`, eval loop) or to the
algorithm-specific override (train loop). -/
inductive LifecycleEvent where
  | preInteraction
  | act
  | envStep
  | render
  | recordTransition (base : Bool)
  | postInteraction (base : Bool)
  | envReset
  | copyStates
deriving DecidableEq, Repr

/-- Per-timestep body of `Trainer.single_agent_train`: pre-interaction, act,
environment step, render (unless headless), the agent's `record_transition`
and `post_interaction` overrides, then reset on any done flag else in-place
state copy. -/
def single_agent_train_step (headless dones_any : Bool) : List LifecycleEvent :=
  [.preInteraction, .act, .envStep] ++ (if headless then [] else [.render]) ++
    [.recordTransition false, .postInteraction false] ++
    [if dones_any then .envReset else .copyStates]

/-- Per-timestep body of `Trainer.single_agent_eval`: act, environment step,
render (unless headless), the base-class `record_transition` and
`post_interaction`, then reset on any done flag else in-place state copy. -/
def single_agent_eval_step (headless dones_any : Bool) : List LifecycleEvent :=
  [.act, .envStep] ++ (if headless then [] else [.render]) ++
    [.recordTransition true, .postInteraction true] ++
    [if dones_any then .envReset else .copyStates]

/-! ### MultivariateGaussianMixin (`skrl/models/torch/multivariate_gaussian.py`) -/

/-- A `MultivariateNormal(actions_mean, scale_tril=covariance)` value:
`loc` is the batch of mean rows and `logStd` the clamped log standard
deviations, from which the stored diagonal `scale_tril` is
`diag(exp logStd * exp logStd)` (kept in log form, `exp` being injective). -/
structure MGDist where
  loc : List (List ℚ)
  logStd : List ℚ
deriving DecidableEq, Repr

/-- The role-keyed dictionaries of `MultivariateGaussianMixin`, as
association lists (most recent binding first). -/
structure MGState where
  clip_actions : List (String × Bool)
  clip_log_std : List (String × Bool)
  log_std_min : List (String × ℚ)
  log_std_max : List (String × ℚ)
  log_std : List (String × Option (List ℚ))
  num_samples : List (String × Option Nat)
  distribution : List (String × Option MGDist)
deriving Repr

/-- Python `d[k] = v` on a role dictionary. -/
def dset {α : Type} (d : List (String × α)) (k : String) (v : α) :
    List (String × α) :=
  (k, v) :: d

/-- The lookup pattern `d[role] if role in d else d[""]`; `none` is a raised
`KeyError` (both keys absent). -/
def roleGet {α : Type} (d : List (String × α)) (role : String) : Option α :=
  match List.lookup role d with
  | some v => some v
  | none => List.lookup "" d

/-- `MultivariateGaussianMixin.__init__` applied to an existing state:
registers the role in every dictionary. `action_space_is_gym` stands for
`issubclass(type(self.action_space), gym.Space)`. -/
def mg_register (st : MGState) (clip_actions action_space_is_gym clip_log_std : Bool)
    (min_log_std max_log_std : ℚ) (role : String) : MGState :=
  { clip_actions := dset st.clip_actions role (clip_actions && action_space_is_gym)
    clip_log_std := dset st.clip_log_std role clip_log_std
    log_std_min := dset st.log_std_min role min_log_std
    log_std_max := dset st.log_std_max role max_log_std
    log_std := dset st.log_std role none
    num_samples := dset st.num_samples role none
    distribution := dset st.distribution role none }

/-- The state of a freshly constructed mixin: one `__init__` call with the
default arguments (`clip_actions=False`, `clip_log_std=True`,
`min_log_std=-20`, `max_log_std=2`, `role=""`). -/
def mg_initial : MGState :=
  mg_register ⟨[], [], [], [], [], [], []⟩ false false true (-20) 2 ""

/-- Elementwise `torch.clamp(x, lo, hi)` over a batch of rows (`lo`, `hi`
broadcast along the batch dimension). -/
def clampRows (rows : List (List ℚ)) (lo hi : List ℚ) : List (List ℚ) :=
  rows.map (fun row => (row.zip (lo.zip hi)).map (fun p => min (max p.1 p.2.1) p.2.2))

/-- `MultivariateGaussianMixin.act`. `actions_mean` and `log_std` are what
`self.compute` returned, `sample` the realized `rsample()` draw, and
`clip_min`/`clip_max` the instance clip bounds. The returned tuple is
(actions, distribution, point the log-probability is evaluated at,
actions_mean) — the `log_prob` tensor itself is represented symbolically by
the distribution/point pair — alongside the updated state; `none` is a raised
`KeyError` from a dictionary lookup. -/
def mg_act (st : MGState) (role : String) (actions_mean : List (List ℚ))
    (log_std : List ℚ) (sample : List (List ℚ))
    (taken_actions : Option (List (List ℚ))) (clip_min clip_max : List ℚ) :
    Option ((List (List ℚ) × MGDist × List (List ℚ) × List (List ℚ)) × MGState) := do
  let cls ← roleGet st.clip_log_std role
  let log_std2 ←
    if cls then do
      let mn ← roleGet st.log_std_min role
      let mx ← roleGet st.log_std_max role
      pure (log_std.map (fun x => min (max x mn) mx))
    else
      pure log_std
  let dist : MGDist := ⟨actions_mean, log_std2⟩
  let st2 : MGState :=
    { st with
      log_std := dset st.log_std role (some log_std2)
      num_samples := dset st.num_samples role (some actions_mean.length)
      distribution := dset st.distribution role (some dist) }
  let ca ← roleGet st.clip_actions role
  let actions := if ca then clampRows sample clip_min clip_max else sample
  let log_prob_point :=
    match taken_actions with
    | some ta => ta
    | none => actions
  pure ((actions, dist, log_prob_point, actions_mean), st2)

/-- Return value of `MultivariateGaussianMixin.get_entropy`: the zero scalar
tensor when no distribution has been created, else the entropy of the stored
distribution (represented by the distribution itself). -/
inductive EntropyResult where
  | zeroScalar
  | entropyOf (d : MGDist)
deriving DecidableEq, Repr

/-- `MultivariateGaussianMixin.get_entropy`; `none` is a raised `KeyError`. -/
def mg_get_entropy (st : MGState) (role : String) : Option EntropyResult := do
  let d ← roleGet st.distribution role
  match d with
  | none => pure .zeroScalar
  | some dist => pure (.entropyOf dist)

/-- `MultivariateGaussianMixin.get_log_std`: the stored log-std row repeated
`num_samples` times. The outer `none` is a raised `KeyError`; the inner
`none` is the `TypeError` of calling `.repeat` on a still-`None` entry. -/
def mg_get_log_std (st : MGState) (role : String) :
    Option (Option (List (List ℚ))) := do
  let l ← roleGet st.log_std role
  let n ← roleGet st.num_samples role
  pure (match l, n with
    | some lv, some nv => some (List.replicate nv lv)
    | _, _ => none)

/-- `MultivariateGaussianMixin.distribution`; `none` is a raised `KeyError`. -/
def mg_distribution_of (st : MGState) (role : String) : Option (Option MGDist) :=
  roleGet st.distribution role

/-- Whether a role key is absent from every role dictionary of the mixin
(it was never registered by `__init__` nor written by `act`). -/
def mg_role_unregistered (st : MGState) (role : String) : Bool :=
  (List.lookup role st.clip_actions).isNone &&
  (List.lookup role st.clip_log_std).isNone &&
  (List.lookup role st.log_std_min).isNone &&
  (List.lookup role st.log_std_max).isNone &&
  (List.lookup role st.log_std).isNone &&
  (List.lookup role st.num_samples).isNone &&
  (List.lookup role st.distribution).isNone

/-! ### Helper lemmas on the scope partitioner -/

theorem setLast_replicate (n q : Nat) (f : Nat → Nat) (h : 0 < n) :
    setLast (List.replicate n q) f = List.replicate (n - 1) q ++ [f q] := by
  induction n with
  | zero => omega
  | succ m ih =>
    cases m with
    | zero => simp [setLast]
    | succ m' =>
      have hrep : List.replicate (m' + 1 + 1) q = q :: q :: List.replicate m' q := by
        simp [List.replicate_succ]
      rw [hrep]
      have ih' := ih (by omega)
      have hrep2 : List.replicate (m' + 1) q = q :: List.replicate m' q := by
        simp [List.replicate_succ]
      rw [hrep2] at ih'
      simp only [setLast] at ih' ⊢
      rw [ih']
      simp [List.replicate_succ]

theorem countP_scopesToRangesFrom (k ix : Nat) (sizes : List Nat) :
    (scopesToRangesFrom ix sizes).countP (fun p => decide (p.1 ≤ k ∧ k < p.2)) =
      if ix ≤ k ∧ k < ix + sizes.sum then 1 else 0 := by
  induction sizes generalizing ix with
  | nil =>
    simp only [scopesToRangesFrom, List.countP_nil, List.sum_nil, Nat.add_zero]
    rw [if_neg (by omega)]
  | cons s rest ih =>
    simp only [scopesToRangesFrom, List.countP_cons, ih (ix + s), List.sum_cons]
    by_cases h1 : ix ≤ k ∧ k < ix + s
    · have h2 : ¬(ix + s ≤ k ∧ k < ix + s + rest.sum) := by omega
      have h3 : ix ≤ k ∧ k < ix + (s + rest.sum) := by omega
      simp [h1, h2, h3]
    · by_cases h2 : ix + s ≤ k ∧ k < ix + s + rest.sum
      · have h3 : ix ≤ k ∧ k < ix + (s + rest.sum) := by omega
        simp [h1, h2, h3]
      · have h3 : ¬(ix ≤ k ∧ k < ix + (s + rest.sum)) := by omega
        simp [h1, h2, h3]

theorem scopesToRangesFrom_getElem? (ix : Nat) (sizes : List Nat) (i : Nat)
    (h : i < sizes.length) :
    (scopesToRangesFrom ix sizes)[i]? =
      some (ix + (sizes.take i).sum, ix + (sizes.take (i + 1)).sum) := by
  induction sizes generalizing ix i with
  | nil => simp at h
  | cons s rest ih =>
    cases i with
    | zero => simp [scopesToRangesFrom]
    | succ j =>
      have hj : j < rest.length := by simpa using h
      simp only [scopesToRangesFrom, List.getElem?_cons_succ, ih (ix + s) j hj,
        List.take_succ_cons, List.sum_cons]
      congr 2 <;> omega

theorem generate_eq_ok (num_envs num_agents : Nat)
    (h1 : 0 < num_agents) (h2 : num_agents ≤ num_envs) :
    generate_equally_spaced_scopes num_envs num_agents =
      .ok (List.replicate (num_agents - 1) (num_envs / num_agents) ++
           [num_envs / num_agents + num_envs % num_agents]) := by
  have hq : 0 < num_envs / num_agents := Nat.div_pos h2 h1
  have hsum : (List.replicate num_agents (num_envs / num_agents)).sum =
      num_agents * (num_envs / num_agents) := by
    simp [List.sum_replicate, smul_eq_mul]
  have hne : (List.replicate num_agents (num_envs / num_agents)).sum ≠ 0 := by
    rw [hsum]; positivity
  have hmod : num_envs - (List.replicate num_agents (num_envs / num_agents)).sum =
      num_envs % num_agents := by
    rw [hsum]
    have := Nat.div_add_mod num_envs num_agents
    omega
  simp only [generate_equally_spaced_scopes, ne_eq, hne, not_false_eq_true, if_true]
  rw [setLast_replicate _ _ _ h1, hmod]

theorem sizes_sum_eq (num_envs num_agents : Nat) (h1 : 0 < num_agents) :
    (List.replicate (num_agents - 1) (num_envs / num_agents) ++
       [num_envs / num_agents + num_envs % num_agents]).sum = num_envs := by
  have hd := Nat.div_add_mod num_envs num_agents
  have h3 : (num_agents - 1) * (num_envs / num_agents) + num_envs / num_agents =
      num_agents * (num_envs / num_agents) := by
    have h4 : num_agents - 1 + 1 = num_agents := by omega
    calc (num_agents - 1) * (num_envs / num_agents) + num_envs / num_agents
        = (num_agents - 1 + 1) * (num_envs / num_agents) := by ring
      _ = num_agents * (num_envs / num_agents) := by rw [h4]
  simp only [List.sum_append, List.sum_replicate, smul_eq_mul, List.sum_cons, List.sum_nil]
  omega

theorem setup_agents_auto (num_envs num_agents : Nat)
    (h1 : 1 < num_agents) (h2 : num_agents ≤ num_envs) :
    setup_agents num_envs (.list num_agents) [] =
      .ok (.ranges (scopesToRanges
        (List.replicate (num_agents - 1) (num_envs / num_agents) ++
         [num_envs / num_agents + num_envs % num_agents]))) := by
  have h0 : 0 < num_agents := by omega
  have hq : 0 < num_envs / num_agents := Nat.div_pos h2 h0
  have hsum : (List.replicate num_agents (num_envs / num_agents)).sum =
      num_agents * (num_envs / num_agents) := by
    simp [List.sum_replicate, smul_eq_mul]
  have hne : (List.replicate num_agents (num_envs / num_agents)).sum ≠ 0 := by
    rw [hsum]; positivity
  have hmod : num_envs - (List.replicate num_agents (num_envs / num_agents)).sum =
      num_envs % num_agents := by
    rw [hsum]
    have := Nat.div_add_mod num_envs num_agents
    omega
  have hn1 : num_agents ≠ 1 := by omega
  simp only [setup_agents, hn1, if_false, h1, if_true, List.length_nil, if_pos rfl, ne_eq,
    hne, not_false_eq_true, if_true]
  rw [setLast_replicate _ _ _ h0, hmod]

theorem replicate_sum_zero_iff (num_envs num_agents : Nat) (h : 0 < num_agents) :
    (List.replicate num_agents (num_envs / num_agents)).sum = 0 ↔
      num_envs < num_agents := by
  have hs : (List.replicate num_agents (num_envs / num_agents)).sum =
      num_agents * (num_envs / num_agents) := by
    simp [List.sum_replicate, smul_eq_mul]
  rw [hs]
  constructor
  · intro h0
    have hq : num_envs / num_agents = 0 := by
      rcases Nat.mul_eq_zero.mp h0 with h' | h'
      · omega
      · exact h'
    have hd := Nat.div_add_mod num_envs num_agents
    have hm := Nat.mod_lt num_envs h
    rw [hq, Nat.mul_zero, Nat.zero_add] at hd
    omega
  · intro hlt
    rw [Nat.div_eq_of_lt hlt, Nat.mul_zero]

/-! ### Claim theorems: Trainer scope partitioner -/

/-- C1: for `num_envs ≥ num_agents > 1` with an empty scope list, the
auto-generated scope sizes are `num_envs / num_agents` for every agent except
the last, which additionally receives the remainder `num_envs % num_agents`;
the sizes sum to `num_envs`, there is one size per agent, and the converted
half-open ranges partition `[0, num_envs)` exactly (every index below
`num_envs` lies in exactly one range, every other index in none). -/
theorem scope_auto_partition (num_envs num_agents : Nat)
    (h1 : 1 < num_agents) (h2 : num_agents ≤ num_envs) :
    generate_equally_spaced_scopes num_envs num_agents =
      .ok (List.replicate (num_agents - 1) (num_envs / num_agents) ++
           [num_envs / num_agents + num_envs % num_agents]) ∧
    setup_agents num_envs (.list num_agents) [] =
      .ok (.ranges (scopesToRanges
        (List.replicate (num_agents - 1) (num_envs / num_agents) ++
         [num_envs / num_agents + num_envs % num_agents]))) ∧
    (List.replicate (num_agents - 1) (num_envs / num_agents) ++
       [num_envs / num_agents + num_envs % num_agents]).sum = num_envs ∧
    (List.replicate (num_agents - 1) (num_envs / num_agents) ++
       [num_envs / num_agents + num_envs % num_agents]).length = num_agents ∧
    ∀ k : Nat,
      (scopesToRanges (List.replicate (num_agents - 1) (num_envs / num_agents) ++
         [num_envs / num_agents + num_envs % num_agents])).countP
        (fun p => decide (p.1 ≤ k ∧ k < p.2)) = if k < num_envs then 1 else 0 := by
  refine ⟨generate_eq_ok num_envs num_agents (by omega) h2,
    setup_agents_auto num_envs num_agents h1 h2,
    sizes_sum_eq num_envs num_agents (by omega), ?_, ?_⟩
  · simp [List.length_replicate]
    omega
  · intro k
    rw [scopesToRanges, countP_scopesToRangesFrom,
      sizes_sum_eq num_envs num_agents (by omega)]
    by_cases hk : k < num_envs <;> simp [hk]

/-- Witness for C1 at `num_envs = 10`, `num_agents = 3` (the spec's example,
sizes `[3, 3, 4]`). -/
theorem scope_auto_partition_witness :
    generate_equally_spaced_scopes 10 3 = .ok [3, 3, 4] :=
  (scope_auto_partition 10 3 (by decide) (by decide)).1

/-- C4: for more than one agent and a non-empty explicit scope list,
construction fails iff the list's length differs from the number of agents or
its sum differs from `num_envs`; otherwise the sizes are converted by
cumulative sum, the i-th range being `[sum of sizes before i, that + size i)`. -/
theorem setup_agents_explicit (num_envs n : Nat) (scope : List Nat)
    (hn : 1 < n) (hne : scope ≠ []) :
    (isError (setup_agents num_envs (.list n) scope) = true ↔
      (scope.length ≠ n ∨ scope.sum ≠ num_envs)) ∧
    (scope.length = n → scope.sum = num_envs →
      setup_agents num_envs (.list n) scope = .ok (.ranges (scopesToRanges scope)) ∧
      ∀ i, i < n → (scopesToRanges scope)[i]? =
        some ((scope.take i).sum, (scope.take (i + 1)).sum)) := by
  have hn1 : n ≠ 1 := by omega
  have hn0 : n ≠ 0 := by omega
  have hlen : scope.length ≠ 0 := by
    intro h0
    exact hne (List.length_eq_zero.mp h0)
  constructor
  · by_cases hl : scope.length = n
    · by_cases hs : scope.sum = num_envs
      · simp [setup_agents, hn1, hn0, hn, hlen, hl, hs, isError]
      · simp [setup_agents, hn1, hn0, hn, hlen, hl, hs, isError]
    · simp [setup_agents, hn1, hn0, hn, hlen, hl, isError]
  · intro hl hs
    refine ⟨by simp [setup_agents, hn1, hn0, hn, hlen, hl, hs], ?_⟩
    intro i hi
    have hi' : i < scope.length := by omega
    rw [scopesToRanges, scopesToRangesFrom_getElem? 0 scope i hi']
    simp

/-- Witness for C4 at `num_envs = 4`, two agents, scopes `[1, 3]`. -/
theorem setup_agents_explicit_witness :
    setup_agents 4 (.list 2) [1, 3] = .ok (.ranges [(0, 1), (1, 4)]) :=
  ((setup_agents_explicit 4 2 [1, 3] (by decide) (by decide)).2 (by decide) (by decide)).1

/-- C5: scope auto-generation fails with the insufficient-environments
`ValueError` exactly when `num_agents > num_envs`, both in
`generate_equally_spaced_scopes` and in the construction-time
`_setup_agents` auto-partition branch. -/
theorem insufficient_envs (num_envs num_agents : Nat) (h : 0 < num_agents) :
    (isError (generate_equally_spaced_scopes num_envs num_agents) = true ↔
      num_envs < num_agents) ∧
    (1 < num_agents →
      (isError (setup_agents num_envs (.list num_agents) []) = true ↔
        num_envs < num_agents)) := by
  have hiff := replicate_sum_zero_iff num_envs num_agents h
  constructor
  · by_cases h0 : (List.replicate num_agents (num_envs / num_agents)).sum = 0
    · simp only [generate_equally_spaced_scopes, ne_eq, h0, not_true_eq_false, if_false]
      simpa [isError] using hiff.mp h0
    · simp only [generate_equally_spaced_scopes, ne_eq, h0, not_false_eq_true, if_true]
      simp only [isError, Bool.false_eq_true, false_iff]
      exact fun hc => h0 (hiff.mpr hc)
  · intro h1
    have hn1 : num_agents ≠ 1 := by omega
    by_cases h0 : (List.replicate num_agents (num_envs / num_agents)).sum = 0
    · simp only [setup_agents, hn1, if_false, h1, if_true, List.length_nil, if_pos rfl,
        ne_eq, h0, not_true_eq_false]
      simpa [isError] using hiff.mp h0
    · simp only [setup_agents, hn1, if_false, h1, if_true, List.length_nil, if_pos rfl,
        ne_eq, h0, not_false_eq_true, if_true]
      simp only [isError, Bool.false_eq_true, false_iff]
      exact fun hc => h0 (hiff.mpr hc)

/-- Witness for C5 at the spec's example `num_envs = 3`, `num_agents = 5`. -/
theorem insufficient_envs_witness :
    isError (generate_equally_spaced_scopes 3 5) = true :=
  (insufficient_envs 3 5 (by decide)).1.mpr (by decide)

/-- C8 counterexample: with `num_envs = 5` and a single agent given as a list
of length 1, the stored `agents_scope` is not the half-open range
`[0, num_envs)` the claim asserts (it is the placeholder size list `[1]`). -/
theorem single_agent_scope_counterexample :
    setup_agents 5 (.list 1) [] ≠ .ok (.ranges [(0, 5)]) := by
  simp [setup_agents]

/-- C8 amended: with a single agent given as a list of length 1,
`_setup_agents` stores the placeholder size list `[1]` — independent of
`num_envs` — rather than a range; with a bare (non-list) agent the passed
`agents_scope` is left unchanged. Construction succeeds in both cases. -/
theorem single_agent_scope_placeholder (num_envs : Nat) (scope : List Nat) :
    setup_agents num_envs (.list 1) scope = .ok (.sizes [1]) ∧
    setup_agents num_envs .bare scope = .ok (.sizes scope) :=
  ⟨rfl, rfl⟩

/-! ### Claim theorems: DDPG and SARSA agents -/

/-- C2: in the DDPG update engine, a sampled transition whose done flag is
true yields a target value equal to the sampled reward, whatever the target
critic returned for that row. -/
theorem ddpg_terminal_masking (discount_factor : ℚ) (rewards : List ℚ)
    (dones : List Bool) (qvals : List ℚ) (i : Nat) (r : ℚ)
    (hr : rewards[i]? = some r) (hd : dones[i]? = some true)
    (hq : ∃ q, qvals[i]? = some q) :
    (ddpg_target_values discount_factor rewards dones qvals)[i]? = some r := by
  induction rewards generalizing dones qvals i with
  | nil => simp at hr
  | cons r0 rs ih =>
    obtain ⟨q, hq⟩ := hq
    cases dones with
    | nil => simp at hd
    | cons d0 ds =>
      cases qvals with
      | nil => simp at hq
      | cons q0 qs =>
        cases i with
        | zero =>
          simp only [List.getElem?_cons_zero, Option.some_inj] at hr hd
          subst hr hd
          simp [ddpg_target_values]
        | succ j =>
          simp only [List.getElem?_cons_succ] at hr hd hq
          simpa [ddpg_target_values] using ih ds qs j hr hd ⟨q, hq⟩

/-- Witness for C2: with rewards `[5, 7]`, dones `[false, true]` and target
critic outputs `[100, 200]`, the second target value is exactly `7`. -/
theorem ddpg_terminal_masking_witness :
    (ddpg_target_values (99/100) [5, 7] [false, true] [100, 200])[1]? = some 7 :=
  ddpg_terminal_masking (99/100) [5, 7] [false, true] [100, 200] 1 7
    (by rfl) (by rfl) ⟨200, by rfl⟩

theorem mem_ddpg_update_events (g : Nat) (hg : 0 < g) :
    AgentEvent.gradientStep ∈ ddpg_update_events g ∧
    AgentEvent.softUpdate ∈ ddpg_update_events g := by
  cases g with
  | zero => omega
  | succ k => simp [ddpg_update_events, List.replicate_succ]

/-- C3: `post_interaction` runs the update engine iff
`timestep >= learning_starts` — for DDPG no gradient step and no
target-network soft-update occurs at any earlier timestep, and for SARSA no
table update — while the base-class tracking-data/checkpoint flush runs on
every call. -/
theorem post_interaction_gating (learning_starts timestep gradient_steps : Nat)
    (h : 0 < gradient_steps) :
    ((AgentEvent.gradientStep ∈
        ddpg_post_interaction learning_starts timestep gradient_steps) ↔
      learning_starts ≤ timestep) ∧
    ((AgentEvent.softUpdate ∈
        ddpg_post_interaction learning_starts timestep gradient_steps) ↔
      learning_starts ≤ timestep) ∧
    AgentEvent.writeTrackingData ∈
      ddpg_post_interaction learning_starts timestep gradient_steps ∧
    ((AgentEvent.tableUpdate ∈ sarsa_post_interaction learning_starts timestep) ↔
      learning_starts ≤ timestep) ∧
    AgentEvent.writeTrackingData ∈ sarsa_post_interaction learning_starts timestep := by
  obtain ⟨hgrad, hsoft⟩ := mem_ddpg_update_events gradient_steps h
  by_cases hls : learning_starts ≤ timestep
  · simp [ddpg_post_interaction, sarsa_post_interaction, hls, hgrad, hsoft]
  · simp [ddpg_post_interaction, sarsa_post_interaction, hls]

/-- Witness for C3 at `learning_starts = 2`, `timestep = 5`,
`gradient_steps = 1`. -/
theorem post_interaction_gating_witness :
    (AgentEvent.gradientStep ∈ ddpg_post_interaction 2 5 1) ↔ 2 ≤ 5 :=
  (post_interaction_gating 2 5 1 (by decide)).1

/-- C6: in `DDPG.act` past the random warm-up with noise configured, the
noise scale follows the linear decay formula for every
`timestep ≤ decay_timesteps` (`decay_timesteps` defaulting to the total
`timesteps` when unset), equals `initial_scale` at `timestep = 0` and
`final_scale` at `timestep = decay_timesteps`; past `decay_timesteps` the
action is returned without noise while the three exploration-noise metrics
are still recorded as zeros. -/
theorem ddpg_exploration_decay (timestep timesteps random_timesteps : Nat)
    (exploration_timesteps : Option Nat) (initial_scale final_scale a n lo hi : ℚ)
    (hrand : random_timesteps ≤ timestep)
    (hD : 0 < exploration_timesteps.getD timesteps) :
    (timestep ≤ exploration_timesteps.getD timesteps →
      ddpg_act timestep timesteps random_timesteps exploration_timesteps
          initial_scale final_scale a n lo hi =
        .policyAction
          ⟨rclamp (a + n * ddpg_noise_scale timestep
              (exploration_timesteps.getD timesteps) initial_scale final_scale) lo hi,
           some (ddpg_noise_scale timestep (exploration_timesteps.getD timesteps)
              initial_scale final_scale),
           some (n * ddpg_noise_scale timestep (exploration_timesteps.getD timesteps)
                  initial_scale final_scale,
                 n * ddpg_noise_scale timestep (exploration_timesteps.getD timesteps)
                  initial_scale final_scale,
                 n * ddpg_noise_scale timestep (exploration_timesteps.getD timesteps)
                  initial_scale final_scale)⟩) ∧
    ddpg_noise_scale 0 (exploration_timesteps.getD timesteps)
      initial_scale final_scale = initial_scale ∧
    ddpg_noise_scale (exploration_timesteps.getD timesteps)
      (exploration_timesteps.getD timesteps) initial_scale final_scale = final_scale ∧
    (exploration_timesteps.getD timesteps < timestep →
      ddpg_act timestep timesteps random_timesteps exploration_timesteps
          initial_scale final_scale a n lo hi =
        .policyAction ⟨a, none, some (0, 0, 0)⟩) := by
  have hnr : ¬ timestep < random_timesteps := by omega
  refine ⟨?_, ?_, ?_, ?_⟩
  · intro hle
    simp [ddpg_act, hnr, hle, mul_comm]
  · simp [ddpg_noise_scale]
  · have hne : ((exploration_timesteps.getD timesteps : Nat) : ℚ) ≠ 0 := by
      exact_mod_cast Nat.pos_iff_ne_zero.mp hD
    simp [ddpg_noise_scale, div_self hne]
  · intro hgt
    have hnle : ¬ timestep ≤ exploration_timesteps.getD timesteps := by omega
    simp [ddpg_act, hnr, hnle]

/-- Witness for C6 at `timestep = 10`, default decay horizon `10`: the scale
at the decay boundary equals the final scale `1/10`. -/
theorem ddpg_exploration_decay_witness :
    ddpg_noise_scale ((none : Option Nat).getD 10) ((none : Option Nat).getD 10)
      1 (1/10) = 1/10 :=
  (ddpg_exploration_decay 10 10 0 none 1 (1/10) 0 1 (-2) 2
    (by decide) (by decide)).2.2.1

/-- C7: the SARSA update engine rewrites exactly the entries
`(e, states e, actions e)` of the Q-table for the recorded environments `e`,
using the one-step bootstrap rule with the done mask and the on-policy next
action `policy (next_states e)`; every other entry is unchanged. -/
theorem sarsa_update_rule (numEnvs : Nat) (learning_rate discount_factor : ℚ)
    (q : Nat → Nat → Nat → ℚ) (states actions : Nat → Nat) (rewards : Nat → ℚ)
    (next_states : Nat → Nat) (dones : Nat → Bool) (policy : Nat → Nat)
    (e : Nat) (he : e < numEnvs) :
    sarsa_update numEnvs learning_rate discount_factor q states actions rewards
        next_states dones policy e (states e) (actions e) =
      q e (states e) (actions e) + learning_rate *
        (rewards e + discount_factor * (if dones e then 0 else 1) *
          q e (next_states e) (policy (next_states e)) -
         q e (states e) (actions e)) ∧
    ∀ e' s a, ¬(e' < numEnvs ∧ s = states e' ∧ a = actions e') →
      sarsa_update numEnvs learning_rate discount_factor q states actions rewards
        next_states dones policy e' s a = q e' s a := by
  constructor
  · simp [sarsa_update, he]
  · intro e' s a hno
    simp [sarsa_update, hno]

/-- Witness for C7: a concrete one-environment instance; the recorded entry
`(0, 0, 1)` is rewritten by the bootstrap rule and every other entry kept. -/
theorem sarsa_update_rule_witness :
    sarsa_update 1 (1/2) (9/10) (fun _ _ _ => 1) (fun _ => 0) (fun _ => 1)
        (fun _ => 2) (fun _ => 3) (fun _ => false) (fun _ => 4) 0
        ((fun _ : Nat => (0 : Nat)) 0) ((fun _ : Nat => (1 : Nat)) 0) =
      (fun _ _ _ => (1 : ℚ)) 0 ((fun _ : Nat => (0 : Nat)) 0) ((fun _ : Nat => (1 : Nat)) 0) +
        (1/2) * ((fun _ => (2 : ℚ)) 0 + (9/10) * (if (fun _ => false) 0 then 0 else 1) *
          (fun _ _ _ => (1 : ℚ)) 0 ((fun _ : Nat => (3 : Nat)) 0)
            ((fun _ : Nat => (4 : Nat)) ((fun _ : Nat => (3 : Nat)) 0)) -
         (fun _ _ _ => (1 : ℚ)) 0 ((fun _ : Nat => (0 : Nat)) 0) ((fun _ : Nat => (1 : Nat)) 0)) ∧
    ∀ e' s a, ¬(e' < 1 ∧ s = (fun _ : Nat => (0 : Nat)) e' ∧ a = (fun _ : Nat => (1 : Nat)) e') →
      sarsa_update 1 (1/2) (9/10) (fun _ _ _ => 1) (fun _ => 0) (fun _ => 1)
        (fun _ => 2) (fun _ => 3) (fun _ => false) (fun _ => 4) e' s a =
      (fun _ _ _ => (1 : ℚ)) e' s a :=
  sarsa_update_rule 1 (1/2) (9/10) (fun _ _ _ => 1) (fun _ => 0) (fun _ => 1)
    (fun _ => 2) (fun _ => 3) (fun _ => false) (fun _ => 4) 0 (by decide)

/-! ### Claim theorems: train vs eval loop -/

/-- C9 counterexample: the eval loop body is not the train loop body with
only the `post_interaction` dispatch changed to the base class — the eval
loop also drops `pre_interaction` and dispatches `record_transition` to the
base class. -/
theorem eval_loop_counterexample :
    ¬ (single_agent_eval_step false false =
      (single_agent_train_step false false).map
        (fun e => match e with
          | .postInteraction _ => LifecycleEvent.postInteraction true
          | e => e)) := by
  decide

/-- C9 amended: per timestep, the eval loop performs the train loop's
lifecycle sequence with `pre_interaction` omitted and with both
`record_transition` and `post_interaction` dispatched to the lifecycle
base class instead of the algorithm-specific overrides (so eval never runs
the gated update engine); the remaining steps (act, environment step,
render, reset-or-copy) are identical. -/
theorem eval_loop_refines_train (headless dones_any : Bool) :
    single_agent_eval_step headless dones_any =
      ((single_agent_train_step headless dones_any).filter
        (fun e => decide (e ≠ LifecycleEvent.preInteraction))).map
        (fun e => match e with
          | .recordTransition _ => LifecycleEvent.recordTransition true
          | .postInteraction _ => LifecycleEvent.postInteraction true
          | e => e) := by
  cases headless <;> cases dones_any <;> decide

/-! ### Claim theorems: MultivariateGaussianMixin role fallback -/

theorem roleGet_empty_key {α : Type} (d : List (String × α)) :
    roleGet d "" = List.lookup "" d := by
  cases h : List.lookup "" d with
  | none => simp [roleGet, h]
  | some v => simp [roleGet, h]

theorem roleGet_unreg {α : Type} (d : List (String × α)) (role : String)
    (h : (List.lookup role d).isNone = true) : roleGet d role = roleGet d "" := by
  have h' : List.lookup role d = none := Option.isNone_iff_eq_none.mp h
  rw [roleGet_empty_key]
  simp only [roleGet, h']

/-- C10: every per-role dictionary lookup performed by `act`, `get_entropy`,
`get_log_std` and `distribution` falls back to the entry registered under the
empty role `""` when the requested role was never registered — so on such a
role each method behaves as it does for role `""` (for `act`, the returned
tuple; the state writes go to the requested key) — and `get_entropy` on a
freshly initialized mixin returns the zero scalar for every role rather than
failing. -/
theorem mg_role_fallback (st : MGState) (role : String)
    (h : mg_role_unregistered st role = true) :
    (∀ m l s tk lo hi,
      Option.map Prod.fst (mg_act st role m l s tk lo hi) =
        Option.map Prod.fst (mg_act st "" m l s tk lo hi)) ∧
    mg_get_entropy st role = mg_get_entropy st "" ∧
    mg_get_log_std st role = mg_get_log_std st "" ∧
    mg_distribution_of st role = mg_distribution_of st "" ∧
    (∀ r2 : String, mg_get_entropy mg_initial r2 = some .zeroScalar) := by
  simp only [mg_role_unregistered, Bool.and_eq_true] at h
  obtain ⟨⟨⟨⟨⟨⟨hca, hcls⟩, hmin⟩, hmax⟩, hlsd⟩, hns⟩, hd⟩ := h
  have eCls := roleGet_unreg st.clip_log_std role hcls
  have eMin := roleGet_unreg st.log_std_min role hmin
  have eMax := roleGet_unreg st.log_std_max role hmax
  have eCa := roleGet_unreg st.clip_actions role hca
  have eLsd := roleGet_unreg st.log_std role hlsd
  have eNs := roleGet_unreg st.num_samples role hns
  have eD := roleGet_unreg st.distribution role hd
  refine ⟨?_, ?_, ?_, ?_, ?_⟩
  · intro m l s tk lo hi
    simp only [mg_act, eCls, eMin, eMax, eCa]
    cases roleGet st.clip_log_std "" with
    | none => rfl
    | some cls =>
      cases cls with
      | false => cases roleGet st.clip_actions "" <;> rfl
      | true =>
        cases roleGet st.log_std_min "" with
        | none => rfl
        | some mn =>
          cases roleGet st.log_std_max "" with
          | none => rfl
          | some mx => cases roleGet st.clip_actions "" <;> rfl
  · simp only [mg_get_entropy, eD]
  · simp only [mg_get_log_std, eLsd, eNs]
  · simp only [mg_distribution_of, eD]
  · intro r2
    by_cases hr : r2 = ""
    · subst hr; rfl
    · have hbeq : (r2 == "") = false := beq_eq_false_iff_ne.mpr hr
      have hlk : List.lookup r2 [("", (none : Option MGDist))] = none := by
        simp [List.lookup, hbeq]
      simp [mg_get_entropy, mg_initial, mg_register, dset, roleGet, hlk]

/-- Witness for C10 at the unregistered role `"policy"` over a freshly
initialized mixin state. -/
theorem mg_role_fallback_witness :
    mg_get_entropy mg_initial "policy" = mg_get_entropy mg_initial "" :=
  (mg_role_fallback mg_initial "policy" (by decide)).2.1

end Skrl
